import Mathlib

/-!
Verification of the Trading Control Plane (strategy engine, risk manager,
position synchronization) of the YellowOnBlackBot repository.

The Python services in `backend_new/services/` are shallowly embedded as
executable Lean definitions:
  * `position_sync.py` (`PositionSyncService`): position cache reconciliation,
    change detection and noise thresholds;
  * `risk_manager.py` (`RiskManager`): pre-trade validation checks, global
    limits, emergency stop;
  * `strategy_engine.py` (`StrategyExecutionEngine`): strategy registry
    operations and the signal-generation algorithms.
Python `float` values are embedded as exact rationals (`ℚ`); Python dicts are
embedded as insertion-ordered association lists; wall-clock timestamps become
an explicit clock argument of type `ℚ`.
-/

namespace CTB

/-- Concatenation of the lists produced by `f` over a list (Python's
pattern of appending to an accumulator inside a `for` loop). -/
def concatMap (f : α → List β) : List α → List β
  | [] => []
  | a :: l => f a ++ concatMap f l

theorem mem_concatMap {f : α → List β} {b : β} :
    ∀ {l : List α}, b ∈ concatMap f l ↔ ∃ a ∈ l, b ∈ f a := by
  intro l
  induction l with
  | nil => simp [concatMap]
  | cons a l ih => simp [concatMap, ih]

theorem concatMap_eq_nil_of_forall {f : α → List β} :
    ∀ {l : List α}, (∀ a ∈ l, f a = []) → concatMap f l = [] := by
  intro l
  induction l with
  | nil => intro _; rfl
  | cons a t ih =>
    intro h
    simp only [concatMap]
    rw [h a (by simp), ih (fun x hx => h x (by simp [hx]))]
    rfl

/-- Python `dict.__setitem__` on an insertion-ordered association list:
replace the value in place if the key exists, append otherwise. -/
def dictInsert : List (String × α) → String → α → List (String × α)
  | [], k, v => [(k, v)]
  | (k', v') :: t, k, v =>
    if k' = k then (k, v) :: t else (k', v') :: dictInsert t k v

/-- Python `key in dict`. -/
def hasKey (l : List (String × α)) (k : String) : Bool :=
  (List.lookup k l).isSome

theorem lookup_dictInsert_self (l : List (String × α)) (k : String) (v : α) :
    List.lookup k (dictInsert l k v) = some v := by
  induction l with
  | nil => simp [dictInsert, List.lookup]
  | cons h t ih =>
    obtain ⟨k', v'⟩ := h
    by_cases hk : k' = k
    · simp [dictInsert, hk, List.lookup]
    · have hb : (k == k') = false := beq_eq_false_iff_ne.mpr (Ne.symm hk)
      simp [dictInsert, hk, List.lookup, hb, ih]

theorem dictInsert_keys_of_hasKey (l : List (String × α)) (k : String) (v : α)
    (h : hasKey l k = true) :
    (dictInsert l k v).map Prod.fst = l.map Prod.fst := by
  induction l with
  | nil => simp [hasKey, List.lookup] at h
  | cons hd t ih =>
    obtain ⟨k', v'⟩ := hd
    by_cases hk : k' = k
    · simp [dictInsert, hk]
    · have hb : (k == k') = false := beq_eq_false_iff_ne.mpr (Ne.symm hk)
      simp only [hasKey, List.lookup, hb] at h
      simp [dictInsert, hk, ih h]

theorem lookup_of_mem_nodupKeys {l : List (String × α)} {k : String} {v : α}
    (hnd : (l.map Prod.fst).Nodup) (hm : (k, v) ∈ l) :
    List.lookup k l = some v := by
  induction l with
  | nil => simp at hm
  | cons hd t ih =>
    obtain ⟨k', v'⟩ := hd
    simp only [List.map_cons, List.nodup_cons] at hnd
    rcases List.mem_cons.mp hm with heq | htl
    · injection heq with h1 h2
      subst h1; subst h2
      simp [List.lookup]
    · have hne : k' ≠ k := by
        intro h
        exact hnd.1 (h ▸ (List.mem_map_of_mem Prod.fst htl))
      have hb : (k == k') = false := beq_eq_false_iff_ne.mpr (Ne.symm hne)
      simp [List.lookup, hb, ih hnd.2 htl]

theorem mem_of_lookup_eq_some {l : List (String × α)} {k : String} {v : α}
    (h : List.lookup k l = some v) : (k, v) ∈ l := by
  induction l with
  | nil => simp [List.lookup] at h
  | cons hd t ih =>
    obtain ⟨k', v'⟩ := hd
    by_cases hk : k' = k
    · subst hk
      simp [List.lookup] at h
      simp [h]
    · have hb : (k == k') = false := beq_eq_false_iff_ne.mpr (Ne.symm hk)
      simp only [List.lookup, hb] at h
      exact List.mem_cons_of_mem _ (ih h)

/-- `List.lookup` commutes with a key-preserving map of the values. -/
theorem lookup_map_values (l : List (String × α)) (f : String → α → β) (k : String) :
    List.lookup k (l.map (fun p => (p.1, f p.1 p.2)))
      = (List.lookup k l).map (fun v => f k v) := by
  induction l with
  | nil => simp [List.lookup]
  | cons hd t ih =>
    obtain ⟨k', v'⟩ := hd
    by_cases hk : k = k'
    · subst hk; simp [List.lookup]
    · have hb : (k == k') = false := beq_eq_false_iff_ne.mpr hk
      simp [List.lookup, hb, ih]

/-- Python's built-in `abs` on a number, as an executable rational function. -/
def ratAbs (q : ℚ) : ℚ := if q < 0 then -q else q

theorem ratAbs_self_sub (q : ℚ) : ratAbs (q - q) = 0 := by
  simp [ratAbs]

theorem ratAbs_eq_abs (q : ℚ) : ratAbs q = |q| := by
  rcases lt_or_le q 0 with h | h
  · rw [ratAbs, if_pos h, abs_of_neg h]
  · rw [ratAbs, if_neg (not_lt.mpr h), abs_of_nonneg h]

/-! ## Position synchronization (`services/position_sync.py`) -/

/-- One raw position entry of the exchange response
(`result['list']` in `PositionSyncService._fetch_all_positions`).
Numeric strings are embedded as the rationals they denote; `takeProfit`
and `stopLoss` are `none` when the raw field is empty/falsy. -/
structure RawPosition where
  symbol : String
  side : String
  size : ℚ
  avgPrice : ℚ
  markPrice : ℚ
  unrealisedPnl : ℚ
  positionValue : ℚ
  leverage : ℚ
  tradeMode : ℕ
  takeProfit : Option ℚ
  stopLoss : Option ℚ
  deriving DecidableEq, Repr

/-- A processed position dict as built in
`PositionSyncService._fetch_all_positions`. -/
structure Position where
  connection_id : String
  symbol : String
  side : String
  size : ℚ
  entry_price : ℚ
  mark_price : ℚ
  unrealized_pnl : ℚ
  position_value : ℚ
  leverage : ℚ
  margin_mode : ℕ
  take_profit : Option ℚ
  stop_loss : Option ℚ
  percentage : ℚ
  last_updated : ℚ
  deriving DecidableEq, Repr

/-- Outcome of one `session.get_positions` call: `ok` carries the raw list
of a `retCode == 0` response; `err` covers both a raised exception and a
non-zero `retCode` (the source treats both by storing `[]`). -/
inductive FetchOutcome where
  | ok (raw : List RawPosition)
  | err
  deriving DecidableEq, Repr

/-- Processing of one raw entry into a position dict
(the body of the `for pos in raw_positions` loop); `now` is the wall clock
used for `last_updated`. -/
def processRaw (connection_id : String) (now : ℚ) (p : RawPosition) : Position :=
  { connection_id := connection_id
    symbol := p.symbol
    side := p.side
    size := p.size
    entry_price := p.avgPrice
    mark_price := p.markPrice
    unrealized_pnl := p.unrealisedPnl
    position_value := p.positionValue
    leverage := p.leverage
    margin_mode := p.tradeMode
    take_profit := p.takeProfit
    stop_loss := p.stopLoss
    percentage := if p.positionValue > 0 then p.unrealisedPnl / p.positionValue * 100 else 0
    last_updated := now }

/-- Per-connection part of `_fetch_all_positions`: a successful fetch keeps
only positions with `size > 0` and processes them; a failure stores `[]`. -/
def processConn (connection_id : String) (now : ℚ) : FetchOutcome → List Position
  | .ok raw => (raw.filter (fun p => p.size > 0)).map (processRaw connection_id now)
  | .err => []

/-- `PositionSyncService._fetch_all_positions`: iterate over the active
connections (in insertion order) and build the fresh positions dict. -/
def fetch_all_positions (conns : List (String × FetchOutcome)) (now : ℚ) :
    List (String × List Position) :=
  conns.map (fun p => (p.1, processConn p.1 now p.2))

/-- `PositionSyncService._has_significant_change`: any of the four compared
fields moved by more than its noise threshold. -/
def has_significant_change (old_pos new_pos : Position) : Bool :=
  (ratAbs (new_pos.size - old_pos.size) > 0.001) ||
  (ratAbs (new_pos.unrealized_pnl - old_pos.unrealized_pnl) > 0.01) ||
  (ratAbs (new_pos.mark_price - old_pos.mark_price) > 0.01) ||
  (ratAbs (new_pos.percentage - old_pos.percentage) > 0.01)

/-- A change event as appended by `_detect_position_changes`. -/
inductive Change where
  | NEW (connection_id : String) (position : Position)
  | UPDATED (connection_id : String) (old_position new_position : Position)
  | CLOSED (connection_id : String) (position : Position)
  deriving DecidableEq, Repr

/-- The dict comprehension `{pos['symbol']: pos for pos in old_positions}`
followed by a lookup: the LAST entry with the given symbol wins. -/
def lastWithSymbol : List Position → String → Option Position
  | [], _ => none
  | p :: rest, s =>
    match lastWithSymbol rest s with
    | some q => some q
    | none => if p.symbol = s then some p else none

/-- `PositionSyncService._detect_position_changes` against the cache
`current`; first the NEW/UPDATED scan over the fresh dict, then the
CLOSED scan over the cached dict. -/
def detect_position_changes (current new_positions : List (String × List Position)) :
    List Change :=
  concatMap (fun conn =>
      let old_for_conn := (List.lookup conn.1 current).getD []
      conn.2.filterMap (fun np =>
        match lastWithSymbol old_for_conn np.symbol with
        | none => some (.NEW conn.1 np)
        | some op =>
          if has_significant_change op np then some (.UPDATED conn.1 op np) else none))
    new_positions
  ++
  concatMap (fun conn =>
      let new_for_conn := (List.lookup conn.1 new_positions).getD []
      conn.2.filterMap (fun op =>
        if new_for_conn.any (fun p => p.symbol = op.symbol) then none
        else some (.CLOSED conn.1 op)))
    current

/-- One cycle of `PositionSyncService._sync_all_positions`, restricted to its
cache effect and the produced change set (database writes and broadcasts have
their own internal catch-all handlers and do not affect either). Returns the
new cache and the change set; with no active connections the cycle is a no-op. -/
def sync_all_positions (current : List (String × List Position))
    (conns : List (String × FetchOutcome)) (now : ℚ) :
    List (String × List Position) × List Change :=
  if conns.isEmpty then (current, [])
  else
    let new_positions := fetch_all_positions conns now
    let changes := detect_position_changes current new_positions
    (new_positions, changes)

/-! Concrete positions for the diff scenarios of the spec's §8. -/

/-- BTCUSDT position with size 1 (spec §8 diff scenario). -/
def btcPos : Position :=
  { connection_id := "c1", symbol := "BTCUSDT", side := "Buy", size := 1
    entry_price := 100, mark_price := 100, unrealized_pnl := 0
    position_value := 100, leverage := 1, margin_mode := 0
    take_profit := none, stop_loss := none, percentage := 0, last_updated := 0 }

/-- ETHUSDT position with size 2 (spec §8 diff scenario). -/
def ethPos : Position :=
  { connection_id := "c1", symbol := "ETHUSDT", side := "Buy", size := 2
    entry_price := 10, mark_price := 10, unrealized_pnl := 0
    position_value := 20, leverage := 1, margin_mode := 0
    take_profit := none, stop_loss := none, percentage := 0, last_updated := 0 }

/-- The four fields compared by `_has_significant_change` do not depend on the
clock, so reprocessing the same raw entry is never a significant change. -/
theorem has_significant_change_processRaw_self (cid : String) (t1 t2 : ℚ)
    (r : RawPosition) :
    has_significant_change (processRaw cid t1 r) (processRaw cid t2 r) = false := by
  simp only [has_significant_change, processRaw, ratAbs_self_sub]
  norm_num

theorem lastWithSymbol_eq_none {l : List Position} {s : String}
    (h : ∀ p ∈ l, p.symbol ≠ s) : lastWithSymbol l s = none := by
  induction l with
  | nil => rfl
  | cons p rest ih =>
    simp only [lastWithSymbol, ih (fun q hq => h q (by simp [hq]))]
    simp [h p (by simp)]

/-- On a duplicate-free symbol list, the symbol-keyed dict lookup finds the
(unique) entry with that symbol. -/
theorem lastWithSymbol_map_processRaw {l : List RawPosition} (cid : String) (t : ℚ)
    {r : RawPosition} (hnd : (l.map RawPosition.symbol).Nodup) (hr : r ∈ l) :
    lastWithSymbol (l.map (processRaw cid t)) r.symbol = some (processRaw cid t r) := by
  induction l with
  | nil => simp at hr
  | cons a rest ih =>
    simp only [List.map_cons, List.nodup_cons] at hnd
    rcases List.mem_cons.mp hr with rfl | htl
    · have hnone : lastWithSymbol (rest.map (processRaw cid t)) r.symbol = none := by
        apply lastWithSymbol_eq_none
        intro p hp
        obtain ⟨x, hx, rfl⟩ := List.mem_map.mp hp
        intro hcontra
        exact hnd.1 (hcontra ▸ List.mem_map_of_mem RawPosition.symbol hx)
      simp [lastWithSymbol, hnone, processRaw]
    · simp [lastWithSymbol, ih hnd.2 htl]

/-- The per-connection symbol-uniqueness assumption: the positions kept by a
successful fetch (those with `size > 0`) carry pairwise distinct symbols. -/
def connSymbolsNodup : FetchOutcome → Prop
  | .ok raw => (((raw.filter (fun p => p.size > 0)).map RawPosition.symbol)).Nodup
  | .err => True

/-- Re-fetching unchanged exchange data yields an empty change set, provided
every connection's kept positions have pairwise distinct symbols. -/
theorem detect_changes_refetch_eq_nil (conns : List (String × FetchOutcome))
    (t1 t2 : ℚ) (hkeys : (conns.map Prod.fst).Nodup)
    (hsyms : ∀ co ∈ conns, connSymbolsNodup co.2) :
    detect_position_changes (fetch_all_positions conns t1)
      (fetch_all_positions conns t2) = [] := by
  have hlook : ∀ (t : ℚ) (c : String) (o : FetchOutcome), (c, o) ∈ conns →
      List.lookup c (fetch_all_positions conns t) = some (processConn c t o) := by
    intro t c o hm
    unfold fetch_all_positions
    rw [lookup_map_values conns (fun c o => processConn c t o) c,
      lookup_of_mem_nodupKeys hkeys hm]
    rfl
  unfold detect_position_changes
  rw [List.append_eq_nil]
  constructor
  · apply concatMap_eq_nil_of_forall
    intro conn hconn
    obtain ⟨⟨c, o⟩, hco, rfl⟩ := List.mem_map.mp hconn
    simp only
    rw [hlook t1 c o hco]
    apply List.filterMap_eq_nil_iff.mpr
    intro np hnp
    cases o with
    | err => simp [processConn] at hnp
    | ok raw =>
      simp only [processConn, Option.getD_some] at hnp ⊢
      obtain ⟨r, hr, rfl⟩ := List.mem_map.mp hnp
      have hsym : ((raw.filter (fun p => p.size > 0)).map RawPosition.symbol).Nodup :=
        hsyms (c, .ok raw) hco
      have hsymr : (processRaw c t2 r).symbol = r.symbol := rfl
      rw [hsymr, lastWithSymbol_map_processRaw c t1 hsym hr]
      simp [has_significant_change_processRaw_self]
  · apply concatMap_eq_nil_of_forall
    intro conn hconn
    obtain ⟨⟨c, o⟩, hco, rfl⟩ := List.mem_map.mp hconn
    simp only
    rw [hlook t2 c o hco]
    apply List.filterMap_eq_nil_iff.mpr
    intro op hop
    cases o with
    | err => simp [processConn] at hop
    | ok raw =>
      simp only [processConn, Option.getD_some] at hop ⊢
      obtain ⟨r, hr, rfl⟩ := List.mem_map.mp hop
      have hany : ((raw.filter (fun p => p.size > 0)).map (processRaw c t2)).any
          (fun p => p.symbol = (processRaw c t1 r).symbol) = true := by
        rw [List.any_eq_true]
        exact ⟨processRaw c t2 r, List.mem_map_of_mem _ hr, by simp [processRaw]⟩
      simp [hany]

/-! Raw data with a duplicated symbol on one connection (the exchange can
report several entries for one symbol, e.g. in hedge mode). -/

/-- First raw entry for symbol XUSDT. -/
def dupRaw1 : RawPosition :=
  { symbol := "XUSDT", side := "Buy", size := 1, avgPrice := 10, markPrice := 10
    unrealisedPnl := 0, positionValue := 10, leverage := 1, tradeMode := 0
    takeProfit := none, stopLoss := none }

/-- Second raw entry for the same symbol XUSDT with a different size. -/
def dupRaw2 : RawPosition :=
  { dupRaw1 with size := 2, positionValue := 20 }

/-- A single connection whose fetch reports the symbol twice. -/
def dupConns : List (String × FetchOutcome) := [("c1", .ok [dupRaw1, dupRaw2])]

/-! ## Risk manager (`services/risk_manager.py`) -/

/-- `pat` is a leading segment of `s` (character by character). -/
def strStarts : List Char → List Char → Bool
  | [], _ => true
  | _ :: _, [] => false
  | a :: as, b :: bs => (a == b) && strStarts as bs

/-- Python's `pat in s` substring test on strings, over character lists. -/
def strHasSub (pat : List Char) : List Char → Bool
  | [] => strStarts pat []
  | s@(_ :: t) => strStarts pat s || strHasSub pat t

/-- The `PortfolioMetrics` dataclass (timestamp omitted: no check reads it). -/
structure PortfolioMetrics where
  total_equity : ℚ
  total_unrealized_pnl : ℚ
  total_exposure : ℚ
  daily_pnl : ℚ
  max_drawdown : ℚ
  current_drawdown : ℚ
  win_rate : ℚ
  sharpe_ratio : ℚ
  active_positions : ℕ
  total_trades_today : ℕ
  deriving DecidableEq, Repr

/-- The `PositionRisk` dataclass, restricted to the fields trade validation
reads (`size`) plus the identifying/monitored fields. -/
structure PositionRisk where
  symbol : String
  size : ℚ
  entry_price : ℚ
  current_price : ℚ
  unrealized_pnl : ℚ
  volatility : ℚ
  deriving DecidableEq, Repr

/-- A strategy's limit dict: only the keys `'max_exposure'` and
`'max_risk_per_trade'` are ever consulted by `_check_strategy_trade_limits`. -/
structure StrategyLimits where
  max_exposure : Option ℚ
  max_risk_per_trade : Option ℚ
  deriving DecidableEq, Repr

/-- One violation string appended by `RiskManager.validate_trade` or its
check helpers; each constructor stands for one message of the source and
carries the values interpolated into it. -/
inductive Violation where
  | leverageLimit (leverage limit : ℚ)
  | minBalance (equity minimum : ℚ)
  | exposureLimit (new_exposure limit : ℚ)
  | dailyLossLimit (daily_pnl : ℚ)
  | maxPositionsReached (limit : ℚ)
  | strategyExposure (strategy_id : String)
  | strategyRiskPerTrade (strategy_id : String)
  | singlePositionLimit (position_percent limit : ℚ)
  | drawdownLimit (current_drawdown : ℚ)
  | positionRiskTooHigh (position_risk : ℚ)
  | correlatedPositions
  | emergencyStopActive
  | strategyCheckError
  | portfolioCheckError
  | positionCheckError
  deriving DecidableEq, Repr

/-- The mutable `RiskManager` state read by trade validation. -/
structure RiskState where
  global_limits : List (String × ℚ)
  strategy_limits : List (String × StrategyLimits)
  portfolio_metrics : Option PortfolioMetrics
  position_risks : List (String × PositionRisk)
  emergency_stop_triggered : Bool
  deriving DecidableEq, Repr

/-- `self.global_limits[name]`. The default is never reached for states whose
key set is the initial one (an invariant of `set_global_limit`). -/
def getLimit (st : RiskState) (name : String) : ℚ :=
  (List.lookup name st.global_limits).getD 0

/-- The initial `self.global_limits` dict of `RiskManager.__init__`. -/
def global_limits_init : List (String × ℚ) :=
  [("max_total_exposure", 50000), ("max_daily_loss", 2000),
   ("max_portfolio_drawdown", 0.15), ("max_position_risk", 0.02),
   ("max_correlation_risk", 0.70), ("max_single_position", 0.10),
   ("max_sector_exposure", 0.30), ("min_account_balance", 1000),
   ("max_leverage_global", 10), ("max_positions", 20),
   ("volatility_threshold", 0.05)]

/-- `RiskManager.set_global_limit`: update the value if the name is a known
limit, otherwise only log a warning (a no-op on the table). -/
def set_global_limit (limits : List (String × ℚ)) (limit_name : String) (value : ℚ) :
    List (String × ℚ) :=
  if hasKey limits limit_name then dictInsert limits limit_name value else limits

/-- A sequence of `set_global_limit` calls applied in order. -/
def applyLimitCalls (limits : List (String × ℚ)) (calls : List (String × ℚ)) :
    List (String × ℚ) :=
  calls.foldl (fun acc c => set_global_limit acc c.1 c.2) limits

/-- `RiskManager._check_global_trade_limits`. Its body performs no division,
so its internal `except` branch is unreachable. -/
def check_global_trade_limits (st : RiskState) (trade_value : ℚ) (leverage : ℤ) :
    List Violation :=
  (if (leverage : ℚ) > getLimit st "max_leverage_global" then
    [.leverageLimit (leverage : ℚ) (getLimit st "max_leverage_global")] else [])
  ++ (match st.portfolio_metrics with
      | some pm =>
        if pm.total_equity < getLimit st "min_account_balance" then
          [.minBalance pm.total_equity (getLimit st "min_account_balance")] else []
      | none => [])
  ++ (match st.portfolio_metrics with
      | some pm =>
        if pm.total_exposure + trade_value > getLimit st "max_total_exposure" then
          [.exposureLimit (pm.total_exposure + trade_value)
            (getLimit st "max_total_exposure")] else []
      | none => [])
  ++ (match st.portfolio_metrics with
      | some pm =>
        if pm.daily_pnl < -(getLimit st "max_daily_loss") then
          [.dailyLossLimit pm.daily_pnl] else []
      | none => [])
  ++ (if (st.position_risks.length : ℚ) ≥ getLimit st "max_positions" then
      [.maxPositionsReached (getLimit st "max_positions")] else [])

/-- `RiskManager._check_strategy_trade_limits`. The `risk_percent` division by
`total_equity` raises `ZeroDivisionError` when the equity is zero; the
function's own `except` then returns only the error entry, discarding any
violation collected before it. -/
def check_strategy_trade_limits (st : RiskState) (strategy_id : String)
    (trade_value : ℚ) : List Violation :=
  match List.lookup strategy_id st.strategy_limits with
  | none => []
  | some limits =>
    let base : List Violation :=
      match limits.max_exposure with
      | some m => if trade_value > m then [.strategyExposure strategy_id] else []
      | none => []
    match limits.max_risk_per_trade with
    | some r =>
      match st.portfolio_metrics with
      | some pm =>
        if pm.total_equity = 0 then [.strategyCheckError]
        else
          base ++
            (if trade_value * (2 / 100) / pm.total_equity > r then
              [.strategyRiskPerTrade strategy_id] else [])
      | none => base
    | none => base

/-- `RiskManager._check_portfolio_trade_limits`. The `position_percent`
division runs first, so a zero equity turns the whole check into the single
error entry of its `except` branch. -/
def check_portfolio_trade_limits (st : RiskState) (trade_value : ℚ) :
    List Violation :=
  match st.portfolio_metrics with
  | none => []
  | some pm =>
    if pm.total_equity = 0 then [.portfolioCheckError]
    else
      (if trade_value / pm.total_equity > getLimit st "max_single_position" then
        [.singlePositionLimit (trade_value / pm.total_equity)
          (getLimit st "max_single_position")] else [])
      ++
      (if pm.current_drawdown > getLimit st "max_portfolio_drawdown" then
        [.drawdownLimit pm.current_drawdown] else [])

/-- `RiskManager._check_position_trade_limits`. -/
def check_position_trade_limits (st : RiskState) (symbol side : String)
    (quantity price : ℚ) : List Violation :=
  match List.lookup symbol st.position_risks with
  | none => []
  | some existing_position =>
    let new_size := existing_position.size +
      (if side.toUpper = "BUY" then quantity else -quantity)
    match st.portfolio_metrics with
    | none => []
    | some pm =>
      if pm.total_equity = 0 then [.positionCheckError]
      else
        if ratAbs (new_size * price) / pm.total_equity >
            getLimit st "max_single_position" then
          [.positionRiskTooHigh (ratAbs (new_size * price) / pm.total_equity)]
        else []

/-- `RiskManager._check_correlation_limits` (the simplified heuristic of the
source: more than 5 tracked positions of which more than 10 contain USDT). -/
def check_correlation_limits (st : RiskState) : List Violation :=
  if st.position_risks.length > 5 then
    if ((st.position_risks.map Prod.fst).filter
          (fun s => strHasSub "USDT".toList s.toList)).length > 10 then
      [.correlatedPositions]
    else []
  else []

/-- The five non-emergency checks of `validate_trade`, concatenated in source
order (global, strategy, portfolio, position, correlation). -/
def other_trade_violations (st : RiskState) (strategy_id symbol side : String)
    (quantity price : ℚ) (leverage : ℤ) : List Violation :=
  check_global_trade_limits st (quantity * price * (leverage : ℚ)) leverage
  ++ check_strategy_trade_limits st strategy_id (quantity * price * (leverage : ℚ))
  ++ check_portfolio_trade_limits st (quantity * price * (leverage : ℚ))
  ++ check_position_trade_limits st symbol side quantity price
  ++ check_correlation_limits st

/-- `RiskManager.validate_trade`: run the five checks, then append the
emergency-stop violation when the flag is set; accepted iff no violation.
(Each check catches its own exceptions, so the outer `except` of the source
is unreachable and the function always returns the structured pair.) -/
def validate_trade (st : RiskState) (strategy_id symbol side : String)
    (quantity price : ℚ) (leverage : ℤ) : Bool × List Violation :=
  let violations :=
    other_trade_violations st strategy_id symbol side quantity price leverage
    ++ (if st.emergency_stop_triggered then [Violation.emergencyStopActive] else [])
  (violations.isEmpty, violations)

/-- `RiskManager.reset_emergency_stop`. -/
def reset_emergency_stop (st : RiskState) : RiskState :=
  { st with emergency_stop_triggered := false }

/-- Portfolio metrics for the spec's §8 exposure-ceiling scenario: equity
10000, current exposure 900, nothing else near a limit. -/
def pm_demo : PortfolioMetrics :=
  { total_equity := 10000, total_unrealized_pnl := 0, total_exposure := 900
    daily_pnl := 0, max_drawdown := 0, current_drawdown := 0, win_rate := 0
    sharpe_ratio := 0, active_positions := 0, total_trades_today := 0 }

/-- Risk state for the exposure-ceiling scenario:
`set_global_limit('max_total_exposure', 1000)` applied to the initial limits. -/
def rm_demo_state : RiskState :=
  { global_limits := set_global_limit global_limits_init "max_total_exposure" 1000
    strategy_limits := [], portfolio_metrics := some pm_demo
    position_risks := [], emergency_stop_triggered := false }

/-- Portfolio metrics with zero equity (triggers the `ZeroDivisionError`
branch of the portfolio check). -/
def pm_zero_equity : PortfolioMetrics :=
  { pm_demo with total_equity := 0 }

/-- Risk state whose metrics have zero equity. -/
def rm_zero_equity_state : RiskState :=
  { rm_demo_state with portfolio_metrics := some pm_zero_equity }

/-- Risk state with the emergency stop set and otherwise default limits and
no metrics. -/
def rm_emergency_state : RiskState :=
  { global_limits := global_limits_init, strategy_limits := []
    portfolio_metrics := none, position_risks := []
    emergency_stop_triggered := true }

/-! ## Strategy engine (`services/strategy_engine.py`) -/

/-- `StrategyStatus` enum. -/
inductive StrategyStatus where
  | INACTIVE
  | ACTIVE
  | PAUSED
  | ERROR
  | STOPPED
  deriving DecidableEq, Repr

/-- `SignalType` enum. -/
inductive SignalType where
  | BUY
  | SELL
  | CLOSE_LONG
  | CLOSE_SHORT
  | HOLD
  deriving DecidableEq, Repr

/-- A strategy's config dict, restricted to the keys `_apply_strategy_logic`
reads via `config.get(...)`; a `none` field stands for an absent key. -/
structure StrategyConfig where
  type : Option String
  short_ma : Option ℕ
  long_ma : Option ℕ
  rsi_period : Option ℕ
  overbought : Option ℚ
  oversold : Option ℚ
  position_size : Option ℚ
  leverage : Option ℤ
  deriving DecidableEq, Repr

/-- The `Strategy` dataclass fields the registry operations and signal logic
read (performance/risk-limit dicts and timestamps omitted: none of the
embedded operations read them). -/
structure Strategy where
  id : String
  name : String
  connection_id : String
  symbol : String
  status : StrategyStatus
  config : StrategyConfig
  deriving DecidableEq, Repr

/-- The `TradingSignal` dataclass (metadata omitted: always `None` in the
signal constructors of `_apply_strategy_logic`). -/
structure TradingSignal where
  strategy_id : String
  symbol : String
  signal_type : SignalType
  price : ℚ
  quantity : ℚ
  confidence : ℚ
  timestamp : ℚ
  stop_loss : Option ℚ
  take_profit : Option ℚ
  leverage : ℤ
  deriving DecidableEq, Repr

/-- `StrategyExecutionEngine.add_strategy`: unconditional dict assignment
`self.strategies[strategy.id] = strategy`, then return `True`. (The
database save is external persistence and is not modelled.) -/
def add_strategy (strategies : List (String × Strategy)) (strategy : Strategy) :
    List (String × Strategy) × Bool :=
  (dictInsert strategies strategy.id strategy, true)

/-- In-place status assignment `self.strategies[id].status = status`. -/
def set_status (strategies : List (String × Strategy)) (strategy_id : String)
    (status : StrategyStatus) : List (String × Strategy) :=
  strategies.map (fun p =>
    if p.1 = strategy_id then (p.1, { p.2 with status := status }) else p)

/-- `StrategyExecutionEngine.activate_strategy`: if the id is registered, set
its status to ACTIVE (whatever it was) and return `True`; otherwise `False`. -/
def activate_strategy (strategies : List (String × Strategy)) (strategy_id : String) :
    List (String × Strategy) × Bool :=
  if hasKey strategies strategy_id then
    (set_status strategies strategy_id .ACTIVE, true)
  else (strategies, false)

/-- `StrategyExecutionEngine.pause_strategy`: if the id is registered, set its
status to PAUSED (whatever it was) and return `True`; otherwise `False`. -/
def pause_strategy (strategies : List (String × Strategy)) (strategy_id : String) :
    List (String × Strategy) × Bool :=
  if hasKey strategies strategy_id then
    (set_status strategies strategy_id .PAUSED, true)
  else (strategies, false)

/-- Python's built-in `min` on two numbers. -/
def ratMin (a b : ℚ) : ℚ := if a ≤ b then a else b

/-- `series.rolling(w).mean()` evaluated at row `i` (0-based): the mean of
the `w` values ending at `i`, or NaN (`none`) when fewer than `w` rows
precede. -/
def rollingMeanAt (closes : List ℚ) (w : ℕ) (i : ℕ) : Option ℚ :=
  if w ≤ i + 1 then
    some ((((closes.take (i + 1)).drop (i + 1 - w)).foldr (· + ·) 0) / (w : ℚ))
  else none

/-- Float comparison `a <= b` with NaN (`none`) on either side false,
as numpy evaluates it. -/
def optLE : Option ℚ → Option ℚ → Bool
  | some a, some b => a ≤ b
  | _, _ => false

/-- Float comparison `a < b` with NaN (`none`) on either side false. -/
def optLT : Option ℚ → Option ℚ → Bool
  | some a, some b => a < b
  | _, _ => false

/-- The per-row gains of `delta.where(delta > 0, 0)` after the first row:
`max(c - prev, 0)` for each consecutive pair. -/
def gainsFrom (prev : ℚ) : List ℚ → List ℚ
  | [] => []
  | c :: t => (if c - prev > 0 then c - prev else 0) :: gainsFrom c t

/-- The gain series of the RSI computation; the first row's NaN delta fails
the `delta > 0` test and is replaced by 0. -/
def gainSeries : List ℚ → List ℚ
  | [] => []
  | c :: t => 0 :: gainsFrom c t

/-- The per-row losses of `-delta.where(delta < 0, 0)` after the first row. -/
def lossesFrom (prev : ℚ) : List ℚ → List ℚ
  | [] => []
  | c :: t => (if c - prev < 0 then -(c - prev) else 0) :: lossesFrom c t

/-- The loss series of the RSI computation. -/
def lossSeries : List ℚ → List ℚ
  | [] => []
  | c :: t => 0 :: lossesFrom c t

/-- `df['rsi']` at row `i`: `100 - 100/(1 + gain/loss)` over the rolling
means. A zero loss with positive gain gives `rs = inf`, hence RSI 100; a zero
loss with zero gain gives NaN (`none`); an insufficient window gives NaN. -/
def rsiAt (closes : List ℚ) (period : ℕ) (i : ℕ) : Option ℚ :=
  match rollingMeanAt (gainSeries closes) period i,
      rollingMeanAt (lossSeries closes) period i with
  | some g, some l =>
    if l ≠ 0 then some (100 - 100 / (1 + g / l))
    else if g ≠ 0 then some 100 else none
  | _, _ => none

/-- `StrategyExecutionEngine._apply_strategy_logic` on the sorted close
series of the fetched candles. `now` is the wall clock used for the signal's
`timestamp`. A zero rolling window makes pandas raise `ValueError` and a
series shorter than 2 rows makes `iloc[-2]` raise `IndexError`; both are
caught by the function's `except`, which returns `None`. -/
def apply_strategy_logic (closes : List ℚ) (strategy : Strategy) (now : ℚ) :
    Option TradingSignal :=
  let config := strategy.config
  if config.type = some "ma_crossover" then
    let short_period := config.short_ma.getD 10
    let long_period := config.long_ma.getD 30
    if short_period = 0 ∨ long_period = 0 then none
    else if long_period ≤ closes.length then
      if 2 ≤ closes.length then
        let n := closes.length
        let current_short := rollingMeanAt closes short_period (n - 1)
        let current_long := rollingMeanAt closes long_period (n - 1)
        let prev_short := rollingMeanAt closes short_period (n - 2)
        let prev_long := rollingMeanAt closes long_period (n - 2)
        let current_price := closes.getD (n - 1) 0
        if optLE prev_short prev_long && optLT current_long current_short then
          some { strategy_id := strategy.id, symbol := strategy.symbol
                 signal_type := .BUY, price := current_price
                 quantity := config.position_size.getD 0.01, confidence := 0.7
                 timestamp := now, stop_loss := some (current_price * 0.98)
                 take_profit := some (current_price * 1.04)
                 leverage := config.leverage.getD 1 }
        else if optLE prev_long prev_short && optLT current_short current_long then
          some { strategy_id := strategy.id, symbol := strategy.symbol
                 signal_type := .SELL, price := current_price
                 quantity := config.position_size.getD 0.01, confidence := 0.7
                 timestamp := now, stop_loss := some (current_price * 1.02)
                 take_profit := some (current_price * 0.96)
                 leverage := config.leverage.getD 1 }
        else none
      else none
    else none
  else if config.type = some "rsi" then
    let period := config.rsi_period.getD 14
    let overbought := config.overbought.getD 70
    let oversold := config.oversold.getD 30
    if period = 0 then none
    else if period ≤ closes.length then
      let n := closes.length
      let current_price := closes.getD (n - 1) 0
      match rsiAt closes period (n - 1) with
      | some current_rsi =>
        if current_rsi < oversold then
          some { strategy_id := strategy.id, symbol := strategy.symbol
                 signal_type := .BUY, price := current_price
                 quantity := config.position_size.getD 0.01
                 confidence := ratMin 0.9 ((oversold - current_rsi) / 10)
                 timestamp := now, stop_loss := some (current_price * 0.97)
                 take_profit := some (current_price * 1.05)
                 leverage := config.leverage.getD 1 }
        else if current_rsi > overbought then
          some { strategy_id := strategy.id, symbol := strategy.symbol
                 signal_type := .SELL, price := current_price
                 quantity := config.position_size.getD 0.01
                 confidence := ratMin 0.9 ((current_rsi - overbought) / 10)
                 timestamp := now, stop_loss := some (current_price * 1.03)
                 take_profit := some (current_price * 0.95)
                 leverage := config.leverage.getD 1 }
        else none
      | none => none
    else none
  else none

/-- A config dict with no keys set. -/
def emptyConfig : StrategyConfig :=
  { type := none, short_ma := none, long_ma := none, rsi_period := none
    overbought := none, oversold := none, position_size := none, leverage := none }

/-- A registered strategy with id `s1`, status INACTIVE. -/
def strat_s1 : Strategy :=
  { id := "s1", name := "one", connection_id := "c1", symbol := "BTCUSDT"
    status := .INACTIVE, config := emptyConfig }

/-- A different strategy object with the same id `s1`. -/
def strat_s1b : Strategy :=
  { strat_s1 with name := "two" }

/-- A moving-average crossover strategy with windows 1 and 2. -/
def demo_ma_strategy : Strategy :=
  { id := "s1", name := "Demo", connection_id := "c1", symbol := "BTCUSDT"
    status := .ACTIVE
    config := { emptyConfig with
      type := some "ma_crossover", short_ma := some 1, long_ma := some 2 } }

end CTB

/-- C4: with before-cache `{BTCUSDT size 1}` and after-fetch
`{BTCUSDT size 1, ETHUSDT size 2}` (compared fields unchanged), the change
set is exactly one NEW event for ETHUSDT; with before `{BTCUSDT, ETHUSDT}`
and after `{BTCUSDT}`, it is exactly one CLOSED event for ETHUSDT. -/
theorem c4_diff_correctness :
    CTB.detect_position_changes [("c1", [CTB.btcPos])] [("c1", [CTB.btcPos, CTB.ethPos])]
      = [CTB.Change.NEW "c1" CTB.ethPos]
    ∧ CTB.detect_position_changes [("c1", [CTB.btcPos, CTB.ethPos])] [("c1", [CTB.btcPos])]
      = [CTB.Change.CLOSED "c1" CTB.ethPos] := by
  constructor <;>
    · simp [CTB.detect_position_changes, CTB.concatMap, CTB.lastWithSymbol,
        CTB.has_significant_change, CTB.ratAbs, CTB.btcPos, CTB.ethPos, List.lookup,
        List.filterMap_cons]
      norm_num

/-- C5 counterexample: reconciliation is NOT idempotent for every cache state.
When one connection's fetched list reports the same symbol twice (sizes 1 and
2), the symbol-keyed dict built by `_detect_position_changes` keeps only the
last entry, so a second cycle against identical exchange data still reports an
UPDATED change (comparing the first entry against the second). -/
theorem c5_counterexample :
    (CTB.sync_all_positions (CTB.sync_all_positions [] CTB.dupConns 0).1
        CTB.dupConns 1).2 ≠ [] := by
  simp [CTB.sync_all_positions, CTB.fetch_all_positions, CTB.processConn,
    CTB.processRaw, CTB.detect_position_changes, CTB.concatMap, CTB.lastWithSymbol,
    CTB.has_significant_change, CTB.ratAbs, CTB.dupConns, CTB.dupRaw1, CTB.dupRaw2,
    List.lookup, List.filterMap_cons]
  norm_num

/-- C5 (amended): reconciliation is idempotent provided each connection's
fetched position list contains at most one entry per symbol (and connection
ids are distinct, as they are in the source's dict): after one cycle replaces
the cache with the fetched positions, a second cycle against identical
exchange data produces an empty change set. -/
theorem c5_reconciliation_idempotent (cache : List (String × List CTB.Position))
    (conns : List (String × CTB.FetchOutcome)) (t1 t2 : ℚ)
    (hkeys : (conns.map Prod.fst).Nodup)
    (hsyms : ∀ co ∈ conns, CTB.connSymbolsNodup co.2) :
    (CTB.sync_all_positions (CTB.sync_all_positions cache conns t1).1 conns t2).2
      = [] := by
  cases conns with
  | nil => rfl
  | cons hd tl =>
    show (CTB.sync_all_positions (CTB.fetch_all_positions (hd :: tl) t1)
      (hd :: tl) t2).2 = []
    show CTB.detect_position_changes (CTB.fetch_all_positions (hd :: tl) t1)
      (CTB.fetch_all_positions (hd :: tl) t2) = []
    exact CTB.detect_changes_refetch_eq_nil (hd :: tl) t1 t2 hkeys hsyms

/-- C5 witness: the idempotence theorem applied at a concrete connection with
two distinct-symbol positions. -/
theorem c5_witness :
    (CTB.sync_all_positions
        (CTB.sync_all_positions [] [("c1", CTB.FetchOutcome.ok [CTB.dupRaw1])] 0).1
        [("c1", CTB.FetchOutcome.ok [CTB.dupRaw1])] 1).2 = [] :=
  c5_reconciliation_idempotent [] [("c1", CTB.FetchOutcome.ok [CTB.dupRaw1])] 0 1
    (by simp) (by simp [CTB.connSymbolsNodup, CTB.dupRaw1])

/-- C1 counterexample: when connection A's fetch fails while B's succeeds,
A's cached position list is NOT left unchanged — it is replaced by the empty
list — and a CLOSED change event IS produced for A's cached position. -/
theorem c1_counterexample :
    List.lookup "A"
        (CTB.sync_all_positions [("A", [CTB.btcPos]), ("B", [])]
          [("A", CTB.FetchOutcome.err), ("B", CTB.FetchOutcome.ok [CTB.dupRaw1])] 1).1
      ≠ List.lookup "A" [("A", [CTB.btcPos]), ("B", [])]
    ∧ CTB.Change.CLOSED "A" CTB.btcPos ∈
        (CTB.sync_all_positions [("A", [CTB.btcPos]), ("B", [])]
          [("A", CTB.FetchOutcome.err), ("B", CTB.FetchOutcome.ok [CTB.dupRaw1])] 1).2 := by
  constructor <;>
    · simp [CTB.sync_all_positions, CTB.fetch_all_positions, CTB.processConn,
        CTB.processRaw, CTB.detect_position_changes, CTB.concatMap,
        CTB.lastWithSymbol, CTB.has_significant_change, CTB.ratAbs, CTB.btcPos,
        CTB.dupRaw1, List.lookup, List.filterMap_cons]

/-- C1 (amended): in a cycle where connection A's position fetch fails (raise
or non-zero retCode) and connection B's succeeds, A's cache entry is replaced
by the EMPTY list (not left untouched), a CLOSED change event is produced for
every position previously cached for A, and B's cache entry is replaced by the
freshly fetched (processed) positions; the cycle itself completes for all
connections. -/
theorem c1_failed_fetch_clears_cache (cache : List (String × List CTB.Position))
    (rawB : List CTB.RawPosition) (t : ℚ) (A B : String) (hAB : A ≠ B) :
    List.lookup A
        (CTB.sync_all_positions cache [(A, .err), (B, .ok rawB)] t).1 = some []
    ∧ List.lookup B
        (CTB.sync_all_positions cache [(A, .err), (B, .ok rawB)] t).1
        = some (CTB.processConn B t (.ok rawB))
    ∧ ∀ p ∈ (List.lookup A cache).getD [],
        CTB.Change.CLOSED A p ∈
          (CTB.sync_all_positions cache [(A, .err), (B, .ok rawB)] t).2 := by
  have hBA : (B == A) = false := beq_eq_false_iff_ne.mpr (Ne.symm hAB)
  refine ⟨?_, ?_, ?_⟩
  · simp [CTB.sync_all_positions, CTB.fetch_all_positions, CTB.processConn,
      List.lookup]
  · simp [CTB.sync_all_positions, CTB.fetch_all_positions, CTB.processConn,
      List.lookup, hBA]
  · intro p hp
    cases hL : List.lookup A cache with
    | none => rw [hL] at hp; simp at hp
    | some ol =>
      rw [hL] at hp
      simp only [Option.getD_some] at hp
      have hm : (A, ol) ∈ cache := CTB.mem_of_lookup_eq_some hL
      show CTB.Change.CLOSED A p ∈
        CTB.detect_position_changes cache
          (CTB.fetch_all_positions [(A, .err), (B, .ok rawB)] t)
      unfold CTB.detect_position_changes
      rw [List.mem_append]
      right
      rw [CTB.mem_concatMap]
      refine ⟨(A, ol), hm, ?_⟩
      have hnew : List.lookup A
          (CTB.fetch_all_positions [(A, .err), (B, .ok rawB)] t) = some [] := by
        simp [CTB.fetch_all_positions, CTB.processConn, List.lookup]
      simp only [hnew, Option.getD_some]
      rw [List.mem_filterMap]
      exact ⟨p, hp, by simp⟩

namespace CTB

theorem mem_ite_nil_iff {c : Prop} [Decidable c] {v x : α} :
    (x ∈ (if c then [v] else ([] : List α))) ↔ (c ∧ x = v) := by
  by_cases h : c
  · simp [h]
  · simp [h]

theorem es_not_mem_global (st : RiskState) (tv : ℚ) (lev : ℤ) :
    Violation.emergencyStopActive ∉ check_global_trade_limits st tv lev := by
  intro h
  rcases hpm : st.portfolio_metrics with _ | pm <;>
    simp [check_global_trade_limits, hpm, mem_ite_nil_iff, List.mem_append] at h

theorem es_not_mem_strategy (st : RiskState) (sid : String) (tv : ℚ) :
    Violation.emergencyStopActive ∉ check_strategy_trade_limits st sid tv := by
  intro h
  rcases hsl : List.lookup sid st.strategy_limits with _ | sl
  · simp [check_strategy_trade_limits, hsl] at h
  · rcases hme : sl.max_exposure with _ | m <;>
      rcases hrt : sl.max_risk_per_trade with _ | r <;>
      rcases hpm : st.portfolio_metrics with _ | pm <;>
      simp only [check_strategy_trade_limits, hsl, hme, hrt, hpm] at h <;>
      (try split at h) <;>
      simp [mem_ite_nil_iff, List.mem_append] at h

theorem es_not_mem_portfolio (st : RiskState) (tv : ℚ) :
    Violation.emergencyStopActive ∉ check_portfolio_trade_limits st tv := by
  intro h
  rcases hpm : st.portfolio_metrics with _ | pm
  · simp [check_portfolio_trade_limits, hpm] at h
  · simp only [check_portfolio_trade_limits, hpm] at h
    split at h <;> simp [mem_ite_nil_iff, List.mem_append] at h

theorem es_not_mem_position (st : RiskState) (sym side : String) (q p : ℚ) :
    Violation.emergencyStopActive ∉ check_position_trade_limits st sym side q p := by
  intro h
  rcases hpr : List.lookup sym st.position_risks with _ | ex
  · simp [check_position_trade_limits, hpr] at h
  · rcases hpm : st.portfolio_metrics with _ | pm
    · simp [check_position_trade_limits, hpr, hpm] at h
    · simp only [check_position_trade_limits, hpr, hpm] at h
      split at h <;> simp [mem_ite_nil_iff] at h

theorem es_not_mem_correlation (st : RiskState) :
    Violation.emergencyStopActive ∉ check_correlation_limits st := by
  intro h
  simp only [check_correlation_limits] at h
  split at h <;> [split at h; skip] <;> simp at h

/-- The emergency-stop violation is produced only by the final check of
`validate_trade`, never by the five limit checks. -/
theorem es_not_mem_other (st : RiskState) (sid sym side : String) (q p : ℚ)
    (lev : ℤ) :
    Violation.emergencyStopActive ∉ other_trade_violations st sid sym side q p lev := by
  intro h
  simp only [other_trade_violations, List.mem_append] at h
  rcases h with ((((h | h) | h) | h) | h)
  · exact es_not_mem_global st _ lev h
  · exact es_not_mem_strategy st sid _ h
  · exact es_not_mem_portfolio st _ h
  · exact es_not_mem_position st sym side q p h
  · exact es_not_mem_correlation st h

/-- Resetting the emergency stop changes no field the five limit checks read. -/
theorem other_trade_violations_reset (st : RiskState) (sid sym side : String)
    (q p : ℚ) (lev : ℤ) :
    other_trade_violations (reset_emergency_stop st) sid sym side q p lev
      = other_trade_violations st sid sym side q p lev := rfl

end CTB

/-- C1 witness: the amended theorem applied at a concrete cache with one open
position for connection A. -/
theorem c1_witness :
    List.lookup "A"
        (CTB.sync_all_positions [("A", [CTB.btcPos])]
          [("A", .err), ("B", .ok [CTB.dupRaw1])] 1).1 = some []
    ∧ List.lookup "B"
        (CTB.sync_all_positions [("A", [CTB.btcPos])]
          [("A", .err), ("B", .ok [CTB.dupRaw1])] 1).1
        = some (CTB.processConn "B" 1 (.ok [CTB.dupRaw1]))
    ∧ ∀ p ∈ (List.lookup "A" [("A", [CTB.btcPos])]).getD [],
        CTB.Change.CLOSED "A" p ∈
          (CTB.sync_all_positions [("A", [CTB.btcPos])]
            [("A", .err), ("B", .ok [CTB.dupRaw1])] 1).2 :=
  c1_failed_fetch_clears_cache [("A", [CTB.btcPos])] [CTB.dupRaw1] 1 "A" "B"
    (by decide)

namespace CTB

theorem set_global_limit_keys (ls : List (String × ℚ)) (n : String) (v : ℚ) :
    (set_global_limit ls n v).map Prod.fst = ls.map Prod.fst := by
  unfold set_global_limit
  cases h : hasKey ls n
  · simp [h]
  · simp [h, dictInsert_keys_of_hasKey ls n v h]

end CTB

/-- C2: while the emergency stop is set, `validate_trade` rejects every signal
(for any state and any arguments) with a violation stating the stop is active;
after `reset_emergency_stop` that violation can no longer occur and the outcome
is exactly the verdict of the five ordinary limit checks. -/
theorem c2_emergency_stop_gating (st : CTB.RiskState) (sid sym side : String)
    (q p : ℚ) (lev : ℤ) (h : st.emergency_stop_triggered = true) :
    ((CTB.validate_trade st sid sym side q p lev).1 = false
      ∧ CTB.Violation.emergencyStopActive ∈ (CTB.validate_trade st sid sym side q p lev).2)
    ∧ (CTB.Violation.emergencyStopActive ∉
        (CTB.validate_trade (CTB.reset_emergency_stop st) sid sym side q p lev).2
      ∧ CTB.validate_trade (CTB.reset_emergency_stop st) sid sym side q p lev
          = ((CTB.other_trade_violations st sid sym side q p lev).isEmpty,
             CTB.other_trade_violations st sid sym side q p lev)) := by
  refine ⟨⟨?_, ?_⟩, ?_, ?_⟩
  · simp [CTB.validate_trade, h]
  · simp [CTB.validate_trade, h]
  · have hno := CTB.es_not_mem_other st sid sym side q p lev
    simpa [CTB.validate_trade, CTB.reset_emergency_stop] using hno
  · rw [show CTB.validate_trade (CTB.reset_emergency_stop st) sid sym side q p lev
        = ((CTB.other_trade_violations st sid sym side q p lev ++ []).isEmpty,
           CTB.other_trade_violations st sid sym side q p lev ++ []) from rfl]
    simp

/-- C2 witness: the gating theorem applied at a concrete emergency state. -/
theorem c2_witness :
    ((CTB.validate_trade CTB.rm_emergency_state "s1" "BTCUSDT" "Buy" 1 1 1).1 = false
      ∧ CTB.Violation.emergencyStopActive ∈
        (CTB.validate_trade CTB.rm_emergency_state "s1" "BTCUSDT" "Buy" 1 1 1).2)
    ∧ (CTB.Violation.emergencyStopActive ∉
        (CTB.validate_trade (CTB.reset_emergency_stop CTB.rm_emergency_state)
          "s1" "BTCUSDT" "Buy" 1 1 1).2
      ∧ CTB.validate_trade (CTB.reset_emergency_stop CTB.rm_emergency_state)
          "s1" "BTCUSDT" "Buy" 1 1 1
          = ((CTB.other_trade_violations CTB.rm_emergency_state "s1" "BTCUSDT" "Buy" 1 1 1).isEmpty,
             CTB.other_trade_violations CTB.rm_emergency_state "s1" "BTCUSDT" "Buy" 1 1 1)) :=
  c2_emergency_stop_gating CTB.rm_emergency_state "s1" "BTCUSDT" "Buy" 1 1 1 rfl

/-- C3 counterexample: the emergency-stop check does NOT run first and does
NOT short-circuit. In an emergency-stopped state, a signal with leverage 20
still gets the leverage check evaluated: the returned violations are the
leverage violation followed by the emergency-stop violation, not the
emergency-stop violation alone. -/
theorem c3_counterexample :
    CTB.rm_emergency_state.emergency_stop_triggered = true
    ∧ CTB.validate_trade CTB.rm_emergency_state "s1" "BTCUSDT" "Buy" 1 1 20
        = (false, [CTB.Violation.leverageLimit 20 10,
                   CTB.Violation.emergencyStopActive]) := by
  refine ⟨rfl, ?_⟩
  simp [CTB.validate_trade, CTB.other_trade_violations,
    CTB.check_global_trade_limits, CTB.check_strategy_trade_limits,
    CTB.check_portfolio_trade_limits, CTB.check_position_trade_limits,
    CTB.check_correlation_limits, CTB.getLimit, CTB.global_limits_init,
    CTB.rm_emergency_state, List.lookup]
  norm_num

/-- C3 (amended): the emergency-stop check is evaluated LAST and does not
short-circuit: with the stop active, all five limit checks still run and the
returned list is their violations followed by the emergency-stop violation;
the trade is rejected. -/
theorem c3_emergency_check_last (st : CTB.RiskState) (sid sym side : String)
    (q p : ℚ) (lev : ℤ) (h : st.emergency_stop_triggered = true) :
    CTB.validate_trade st sid sym side q p lev
      = (false, CTB.other_trade_violations st sid sym side q p lev
          ++ [CTB.Violation.emergencyStopActive]) := by
  simp [CTB.validate_trade, h]

/-- C3 witness: the amended theorem applied at a concrete emergency state. -/
theorem c3_witness :
    CTB.validate_trade CTB.rm_emergency_state "s1" "BTCUSDT" "Buy" 1 1 1
      = (false, CTB.other_trade_violations CTB.rm_emergency_state "s1" "BTCUSDT" "Buy" 1 1 1
          ++ [CTB.Violation.emergencyStopActive]) :=
  c3_emergency_check_last CTB.rm_emergency_state "s1" "BTCUSDT" "Buy" 1 1 1 rfl

/-- C6: with `max_total_exposure` set to 1000 and current exposure 900 (no
other limit near violation, stop not set), a signal of trade value 150 is
rejected with exactly the exposure violation (900 + 150 = 1050 > 1000) and a
signal of trade value 50 is accepted with an empty violations list. -/
theorem c6_exposure_ceiling :
    CTB.validate_trade CTB.rm_demo_state "strat1" "BTCUSDT" "Buy" 1 150 1
      = (false, [CTB.Violation.exposureLimit 1050 1000])
    ∧ CTB.validate_trade CTB.rm_demo_state "strat1" "BTCUSDT" "Buy" 1 50 1
      = (true, []) := by
  constructor <;>
    · simp [CTB.validate_trade, CTB.other_trade_violations,
        CTB.check_global_trade_limits, CTB.check_strategy_trade_limits,
        CTB.check_portfolio_trade_limits, CTB.check_position_trade_limits,
        CTB.check_correlation_limits, CTB.getLimit, CTB.global_limits_init,
        CTB.rm_demo_state, CTB.pm_demo, CTB.set_global_limit, CTB.hasKey,
        CTB.dictInsert, List.lookup]
      norm_num

/-- C7: `validate_trade` always returns the structured pair: acceptance is
equivalent to an empty violations list, a rejection always carries a
non-empty list, and an internal error (the division by zero raised inside the
portfolio check when equity is 0) surfaces as a rejection whose list contains
the error description, not as a thrown exception. -/
theorem c7_validation_structured (st : CTB.RiskState) (sid sym side : String)
    (q p : ℚ) (lev : ℤ) :
    ((CTB.validate_trade st sid sym side q p lev).1 = true
      ↔ (CTB.validate_trade st sid sym side q p lev).2 = [])
    ∧ ((CTB.validate_trade st sid sym side q p lev).1 = false
      → (CTB.validate_trade st sid sym side q p lev).2 ≠ [])
    ∧ (∀ pm, st.portfolio_metrics = some pm → pm.total_equity = 0 →
        (CTB.validate_trade st sid sym side q p lev).1 = false
        ∧ CTB.Violation.portfolioCheckError ∈
            (CTB.validate_trade st sid sym side q p lev).2) := by
  refine ⟨?_, ?_, ?_⟩
  · simp [CTB.validate_trade]
  · intro hf hnil
    rw [show (CTB.validate_trade st sid sym side q p lev).1
        = (CTB.validate_trade st sid sym side q p lev).2.isEmpty from rfl, hnil] at hf
    simp at hf
  · intro pm hpm heq
    have hport : CTB.Violation.portfolioCheckError ∈
        CTB.check_portfolio_trade_limits st (q * p * (lev : ℚ)) := by
      simp [CTB.check_portfolio_trade_limits, hpm, heq]
    have hmem : CTB.Violation.portfolioCheckError ∈
        (CTB.validate_trade st sid sym side q p lev).2 := by
      rw [show (CTB.validate_trade st sid sym side q p lev).2
          = CTB.other_trade_violations st sid sym side q p lev
            ++ (if st.emergency_stop_triggered then
                  [CTB.Violation.emergencyStopActive] else []) from rfl]
      simp only [CTB.other_trade_violations, List.mem_append]
      tauto
    refine ⟨?_, hmem⟩
    rw [show (CTB.validate_trade st sid sym side q p lev).1
        = (CTB.validate_trade st sid sym side q p lev).2.isEmpty from rfl]
    cases hv : (CTB.validate_trade st sid sym side q p lev).2 with
    | nil => rw [hv] at hmem; simp at hmem
    | cons a l => rfl

/-- C7 witness: the structural theorem applied at the zero-equity state. -/
theorem c7_witness :
    (CTB.validate_trade CTB.rm_zero_equity_state "s1" "BTCUSDT" "Buy" 1 1 1).1 = false
    ∧ CTB.Violation.portfolioCheckError ∈
        (CTB.validate_trade CTB.rm_zero_equity_state "s1" "BTCUSDT" "Buy" 1 1 1).2 :=
  (c7_validation_structured CTB.rm_zero_equity_state "s1" "BTCUSDT" "Buy" 1 1 1).2.2
    CTB.pm_zero_equity rfl rfl

/-- C10: `set_global_limit` with an unknown limit name is a no-op on the
limits table, and the set of limit names is invariant under every sequence of
`set_global_limit` calls (only values of pre-existing names can change). -/
theorem c10_limit_names_invariant (ls : List (String × ℚ)) (name : String)
    (v : ℚ) (calls : List (String × ℚ)) :
    (CTB.hasKey ls name = false → CTB.set_global_limit ls name v = ls)
    ∧ (CTB.applyLimitCalls ls calls).map Prod.fst = ls.map Prod.fst := by
  constructor
  · intro h
    simp [CTB.set_global_limit, h]
  · induction calls generalizing ls with
    | nil => rfl
    | cons c t ih =>
      show (CTB.applyLimitCalls (CTB.set_global_limit ls c.1 c.2) t).map Prod.fst
        = ls.map Prod.fst
      rw [ih (CTB.set_global_limit ls c.1 c.2), CTB.set_global_limit_keys]

/-- C10 witness: an unknown name is a no-op on the initial table, and a mixed
call sequence preserves the name set. -/
theorem c10_witness :
    CTB.set_global_limit CTB.global_limits_init "bogus_limit" 7
      = CTB.global_limits_init
    ∧ (CTB.applyLimitCalls CTB.global_limits_init
        [("max_leverage_global", 5), ("bogus_limit", 1)]).map Prod.fst
      = CTB.global_limits_init.map Prod.fst :=
  ⟨(c10_limit_names_invariant CTB.global_limits_init "bogus_limit" 7
      [("max_leverage_global", 5), ("bogus_limit", 1)]).1 (by decide),
   (c10_limit_names_invariant CTB.global_limits_init "bogus_limit" 7
      [("max_leverage_global", 5), ("bogus_limit", 1)]).2⟩

namespace CTB

theorem lookup_set_status (reg : List (String × Strategy)) (strategy_id : String)
    (status : StrategyStatus) :
    List.lookup strategy_id (set_status reg strategy_id status)
      = (List.lookup strategy_id reg).map (fun s => { s with status := status }) := by
  induction reg with
  | nil => rfl
  | cons hd t ih =>
    obtain ⟨k, v⟩ := hd
    by_cases hk : k = strategy_id
    · subst hk
      have hf : set_status ((k, v) :: t) k status
          = (k, { v with status := status }) :: set_status t k status := by
        simp [set_status]
      rw [hf]
      simp [List.lookup]
    · have hf : set_status ((k, v) :: t) strategy_id status
          = (k, v) :: set_status t strategy_id status := by
        simp [set_status, hk]
      have hb : (strategy_id == k) = false := beq_eq_false_iff_ne.mpr (Ne.symm hk)
      rw [hf]
      simp only [List.lookup, hb]
      exact ih

end CTB

/-- C8 counterexample: `add_strategy` does NOT report a duplicate-ID error —
it silently overwrites and returns `True`; and `pause_strategy` on an
INACTIVE strategy does NOT return an error leaving the status unchanged — it
returns `True` and sets the status to PAUSED (a transition outside the
`INACTIVE → ACTIVE ⇄ PAUSED` graph). -/
theorem c8_counterexample :
    (CTB.add_strategy (CTB.add_strategy [] CTB.strat_s1).1 CTB.strat_s1b).2 = true
    ∧ List.lookup "s1"
        (CTB.add_strategy (CTB.add_strategy [] CTB.strat_s1).1 CTB.strat_s1b).1
      = some CTB.strat_s1b
    ∧ CTB.strat_s1.status = CTB.StrategyStatus.INACTIVE
    ∧ (CTB.pause_strategy (CTB.add_strategy [] CTB.strat_s1).1 "s1").2 = true
    ∧ (List.lookup "s1"
        (CTB.pause_strategy (CTB.add_strategy [] CTB.strat_s1).1 "s1").1).map
          CTB.Strategy.status
      = some CTB.StrategyStatus.PAUSED := by
  refine ⟨?_, ?_, rfl, ?_, ?_⟩ <;>
    simp [CTB.add_strategy, CTB.pause_strategy, CTB.set_status, CTB.dictInsert,
      CTB.hasKey, CTB.strat_s1, CTB.strat_s1b, List.lookup]

/-- C8 (amended): `add_strategy` always succeeds, storing the strategy under
its id and overwriting any previously registered strategy with that id;
`activate_strategy` and `pause_strategy` validate nothing about the current
status: for any registered id they set the status to ACTIVE resp. PAUSED and
return `True`, and they return `False` with the registry unchanged exactly
when the id is unknown. -/
theorem c8_registry_operations (reg : List (String × CTB.Strategy))
    (s : CTB.Strategy) (id : String) :
    ((CTB.add_strategy reg s).2 = true
      ∧ List.lookup s.id (CTB.add_strategy reg s).1 = some s)
    ∧ (CTB.hasKey reg id = false →
        CTB.activate_strategy reg id = (reg, false)
        ∧ CTB.pause_strategy reg id = (reg, false))
    ∧ (CTB.hasKey reg id = true →
        (CTB.activate_strategy reg id).2 = true
        ∧ (CTB.pause_strategy reg id).2 = true
        ∧ (List.lookup id (CTB.activate_strategy reg id).1).map CTB.Strategy.status
            = some CTB.StrategyStatus.ACTIVE
        ∧ (List.lookup id (CTB.pause_strategy reg id).1).map CTB.Strategy.status
            = some CTB.StrategyStatus.PAUSED) := by
  refine ⟨⟨rfl, CTB.lookup_dictInsert_self reg s.id s⟩, ?_, ?_⟩
  · intro h
    constructor <;> simp [CTB.activate_strategy, CTB.pause_strategy, h]
  · intro h
    obtain ⟨v, hv⟩ := Option.isSome_iff_exists.mp h
    refine ⟨?_, ?_, ?_, ?_⟩ <;>
      simp [CTB.activate_strategy, CTB.pause_strategy, h, CTB.lookup_set_status, hv]

/-- C8 witness: the amended theorem applied at a registry holding `s1`
(INACTIVE), a duplicate-id strategy, the registered id `s1` and an unknown
id `zzz`. -/
theorem c8_witness :
    ((CTB.add_strategy [("s1", CTB.strat_s1)] CTB.strat_s1b).2 = true
      ∧ List.lookup "s1"
          (CTB.add_strategy [("s1", CTB.strat_s1)] CTB.strat_s1b).1
        = some CTB.strat_s1b)
    ∧ (CTB.activate_strategy [("s1", CTB.strat_s1)] "zzz"
        = ([("s1", CTB.strat_s1)], false)
      ∧ CTB.pause_strategy [("s1", CTB.strat_s1)] "zzz"
        = ([("s1", CTB.strat_s1)], false))
    ∧ ((CTB.activate_strategy [("s1", CTB.strat_s1)] "s1").2 = true
      ∧ (CTB.pause_strategy [("s1", CTB.strat_s1)] "s1").2 = true) := by
  have h1 := c8_registry_operations [("s1", CTB.strat_s1)] CTB.strat_s1b "s1"
  have h2 := c8_registry_operations [("s1", CTB.strat_s1)] CTB.strat_s1b "zzz"
  have hk1 : CTB.hasKey [("s1", CTB.strat_s1)] "s1" = true := by decide
  have hk2 : CTB.hasKey [("s1", CTB.strat_s1)] "zzz" = false := by decide
  exact ⟨h1.1, h2.2.1 hk2, (h1.2.2 hk1).1, (h1.2.2 hk1).2.1⟩

/-- C9 counterexample: signal generation is NOT deterministic in every field —
the signal's `timestamp` is the wall clock at generation time, so two runs of
the MA-crossover algorithm on the identical candle series and config, at
different wall-clock instants, produce different `TradingSignal` values. -/
theorem c9_counterexample :
    CTB.apply_strategy_logic [2, 1, 5] CTB.demo_ma_strategy 0
      ≠ CTB.apply_strategy_logic [2, 1, 5] CTB.demo_ma_strategy 1 := by
  simp [CTB.apply_strategy_logic, CTB.demo_ma_strategy, CTB.emptyConfig,
    CTB.rollingMeanAt, CTB.optLE, CTB.optLT, CTB.ratMin, List.getD]
  norm_num

/-- C9 (amended): for an identical candle series and config, two runs of the
signal algorithm (MA crossover or RSI) either both produce no signal or
produce signals identical in every field EXCEPT the timestamp, which is the
wall-clock instant of the run. -/
theorem c9_signal_deterministic_modulo_timestamp (closes : List ℚ)
    (strategy : CTB.Strategy) (t1 t2 : ℚ) :
    (CTB.apply_strategy_logic closes strategy t1).map
        (fun s => { s with timestamp := 0 })
      = (CTB.apply_strategy_logic closes strategy t2).map
        (fun s => { s with timestamp := 0 })
    ∧ (∀ s ∈ CTB.apply_strategy_logic closes strategy t1, s.timestamp = t1) := by
  constructor
  · simp only [CTB.apply_strategy_logic]
    repeat' split
    all_goals rfl
  · intro s hs
    simp only [CTB.apply_strategy_logic] at hs
    repeat' split at hs
    all_goals simp_all [Option.mem_def]
    all_goals subst hs
    all_goals rfl

/-- C9 witness: the determinism-modulo-timestamp theorem applied at the MA
demo strategy and a concrete series. -/
theorem c9_witness :
    (CTB.apply_strategy_logic [2, 1, 5] CTB.demo_ma_strategy 0).map
        (fun s => { s with timestamp := 0 })
      = (CTB.apply_strategy_logic [2, 1, 5] CTB.demo_ma_strategy 1).map
        (fun s => { s with timestamp := 0 })
    ∧ (∀ s ∈ CTB.apply_strategy_logic [2, 1, 5] CTB.demo_ma_strategy 0,
        s.timestamp = 0) :=
  c9_signal_deterministic_modulo_timestamp [2, 1, 5] CTB.demo_ma_strategy 0 1
